import Mathlib

/-!
# Wordly: the dictionary lookup page (`src/index.js`)

A shallow embedding of the script behind the single-page dictionary client.
The three script globals and the parts of the document the script reads or
writes are gathered in one record, `AppState`; every function of the script
is a function on that record.  An element is *hidden* when its class list
holds `hidden` (`hideElement` adds the class, `showElement` removes it).

`handleSearch` is asynchronous.  It is split at its suspension point:
`handleSearchBegin` is the part that runs before the request is sent
(lines 55 to 63) and `handleSearchResume` the part that runs once the request
has settled (lines 65 to 85).  `handleSearch` composes the two for a lookup
that nothing else interleaves with; `step` lets other events happen between
the two halves.

A response body is any JSON value for which `data[0]` throws (the body
`null`) or yields `undefined`, `null` or an entry object of the shape the
dictionary service documents; `data[0]` of an empty array is `undefined`.
Markup assigned through `innerHTML` is kept as the string assigned: what the
HTML parser makes of it is outside the embedding.
-/

namespace Wordly

/-! ## Data model -/

/-- One element of `phonetics`; a missing property reads as `undefined`
(`none`). -/
structure Phonetic where
  text : Option String
  audio : Option String
  deriving DecidableEq

/-- One element of `meaning.definitions` (`def.definition`, `def.example`). -/
structure Definition where
  definition : String
  exampleText : Option String
  deriving DecidableEq

/-- One element of `meanings`. -/
structure Meaning where
  partOfSpeech : String
  definitions : Option (List Definition)
  synonyms : Option (List String)
  antonyms : Option (List String)
  deriving DecidableEq

/-- One entry object of a response body. -/
structure Entry where
  word : String
  phonetic : Option String
  phonetics : Option (List Phonetic)
  meanings : Option (List Meaning)
  sourceUrls : Option (List String)
  deriving DecidableEq

/-- The values the global `currentWord` can hold. -/
inductive JSVal where
  | undefined
  | null
  | entry (e : Entry)
  deriving DecidableEq

/-- A button appended to `audioContainer`: its class, the markup assigned to
its `innerHTML`, and the `phonetic.audio` its click handler passes to
`playAudio`. -/
structure AudioButton where
  className : String
  innerHTML : String
  audio : Option String
  deriving DecidableEq

/-- An `li.definition-item`: the definition paragraph and, when present, the
example paragraph. -/
structure DefinitionItem where
  text : String
  exampleLine : Option String
  deriving DecidableEq

/-- A `div.meaning-section`; a sub-section that was not created is `none`. -/
structure MeaningSection where
  partOfSpeech : String
  definitionsSection : Option (List DefinitionItem)
  synonymsSection : Option (List String)
  antonymsSection : Option (List String)
  deriving DecidableEq

/-- An `a.source-link` appended to `sourceLinks`. -/
structure SourceLink where
  href : String
  target : String
  rel : String
  innerHTML : String
  deriving DecidableEq

/-- The script globals (lines 2 to 4) and the document state the script
reads or writes. -/
structure AppState where
  savedWords : List String
  currentWord : JSVal
  isDarkMode : Bool
  searchInputValue : String
  searchButtonDisabled : Bool
  searchButtonText : String
  errorMessageHidden : Bool
  errorText : String
  loadingIndicatorHidden : Bool
  wordDataContainerHidden : Bool
  wordDataSavedHighlight : Bool
  welcomeMessageHidden : Bool
  savedWordsContainerHidden : Bool
  savedWordsList : List String
  wordTitle : String
  wordPhonetic : String
  saveWordButtonText : String
  saveWordButtonSavedClass : Bool
  saveWordButtonDisabled : Bool
  audioContainerHidden : Bool
  audioButtons : List AudioButton
  meaningsContainer : List MeaningSection
  sourceContainerHidden : Bool
  sourceLinks : List SourceLink
  bodyDarkMode : Bool
  sunIconHidden : Bool
  moonIconHidden : Bool
  deriving DecidableEq

/-- The elements whose `hidden` class the script toggles through
`showElement` and `hideElement`. -/
inductive Elem where
  | errorMessage
  | loadingIndicator
  | wordDataContainer
  | welcomeMessage
  | savedWordsContainer
  | audioContainer
  | sourceContainer
  deriving DecidableEq

/-! ## Strings -/

/-- The code points `String.prototype.trim` strips: ECMAScript `WhiteSpace`
and `LineTerminator`. -/
def isJSWhitespace (c : Char) : Bool :=
  let n := c.toNat
  n == 0x09 || n == 0x0A || n == 0x0B || n == 0x0C || n == 0x0D || n == 0x20 ||
  n == 0xA0 || n == 0x1680 || (0x2000 ≤ n && n ≤ 0x200A) || n == 0x2028 ||
  n == 0x2029 || n == 0x202F || n == 0x205F || n == 0x3000 || n == 0xFEFF

/-- Drop the trailing white space of a character list. -/
def trimEndChars : List Char → List Char
  | [] => []
  | c :: cs =>
    match trimEndChars cs with
    | [] => if isJSWhitespace c then [] else [c]
    | r => c :: r

/-- `String.prototype.trim` on a character list. -/
def trimChars (cs : List Char) : List Char :=
  trimEndChars (cs.dropWhile isJSWhitespace)

/-- `String.prototype.trim`. -/
def jsTrim (s : String) : String :=
  String.mk (trimChars s.data)

/-- Truthiness of a string: every string but the empty one. -/
def truthy (s : String) : Bool :=
  !(s.data.isEmpty)

/-- `x || fallback` for a string-valued property that may be missing. -/
def orElse (x : Option String) (fallback : String) : String :=
  match x with
  | some s => if truthy s then s else fallback
  | none => fallback

/-! ## Utility functions (lines 365 to 371) -/

/-- Whether the element carries the class `hidden`. -/
def isHidden (el : Elem) (s : AppState) : Bool :=
  match el with
  | .errorMessage => s.errorMessageHidden
  | .loadingIndicator => s.loadingIndicatorHidden
  | .wordDataContainer => s.wordDataContainerHidden
  | .welcomeMessage => s.welcomeMessageHidden
  | .savedWordsContainer => s.savedWordsContainerHidden
  | .audioContainer => s.audioContainerHidden
  | .sourceContainer => s.sourceContainerHidden

/-- Add (`true`) or remove (`false`) the class `hidden` on an element. -/
def setHidden (el : Elem) (b : Bool) (s : AppState) : AppState :=
  match el with
  | .errorMessage => { s with errorMessageHidden := b }
  | .loadingIndicator => { s with loadingIndicatorHidden := b }
  | .wordDataContainer => { s with wordDataContainerHidden := b }
  | .welcomeMessage => { s with welcomeMessageHidden := b }
  | .savedWordsContainer => { s with savedWordsContainerHidden := b }
  | .audioContainer => { s with audioContainerHidden := b }
  | .sourceContainer => { s with sourceContainerHidden := b }

/-- `element.classList.remove('hidden')`. -/
def showElement (el : Elem) (s : AppState) : AppState :=
  setHidden el false s

/-- `element.classList.add('hidden')`. -/
def hideElement (el : Elem) (s : AppState) : AppState :=
  setHidden el true s

/-! ## Error banner and theme -/

/-- Lines 357 to 362. -/
def showError (message : String) (s : AppState) : AppState :=
  let s := { s with errorText := message }
  let s := showElement .errorMessage s
  let s := hideElement .wordDataContainer s
  hideElement .welcomeMessage s

/-- Lines 340 to 354. -/
def toggleTheme (s : AppState) : AppState :=
  let s := { s with isDarkMode := !s.isDarkMode }
  let s := { s with bodyDarkMode := s.isDarkMode }
  if s.isDarkMode then
    { s with sunIconHidden := true, moonIconHidden := false }
  else
    { s with sunIconHidden := false, moonIconHidden := true }

/-! ## Saved words -/

/-- Lines 309 to 319.  `currentWord && ...` is false for `null` and
`undefined`. -/
def updateSaveButtonState (s : AppState) : AppState :=
  match s.currentWord with
  | .entry e =>
    if e.word ∈ s.savedWords then
      { s with saveWordButtonText := "Saved", saveWordButtonSavedClass := true,
               saveWordButtonDisabled := true }
    else
      { s with saveWordButtonText := "Save Word", saveWordButtonSavedClass := false,
               saveWordButtonDisabled := false }
  | _ =>
    { s with saveWordButtonText := "Save Word", saveWordButtonSavedClass := false,
             saveWordButtonDisabled := false }

/-- Lines 321 to 337. -/
def updateSavedWordsDisplay (s : AppState) : AppState :=
  let s := { s with savedWordsList := [] }
  if s.savedWords.length = 0 then
    hideElement .savedWordsContainer s
  else
    let s := s.savedWords.foldl
      (fun acc word => { acc with savedWordsList := acc.savedWordsList ++ [word] }) s
    showElement .savedWordsContainer s

/-- Lines 298 to 307. -/
def handleSaveWord (s : AppState) : AppState :=
  match s.currentWord with
  | .entry e =>
    if e.word ∈ s.savedWords then s
    else
      let s := { s with savedWords := s.savedWords ++ [e.word] }
      let s := updateSaveButtonState s
      let s := updateSavedWordsDisplay s
      { s with wordDataSavedHighlight := true }
  | _ => s

/-- Lines 42 to 45. -/
def init (s : AppState) : AppState :=
  updateSavedWordsDisplay s

/-! ## Rendering an entry -/

/-- The filter predicate of line 123: `p.audio && p.audio.trim() !== ''`. -/
def hasAudio (p : Phonetic) : Bool :=
  match p.audio with
  | some a => truthy a && decide (jsTrim a ≠ "")
  | none => false

/-- The template of lines 133 to 139 up to its interpolation. -/
def audioMarkupHead : String :=
  "\n            <svg width=\"16\" height=\"16\" viewBox=\"0 0 24 24\" fill=\"none\" stroke=\"currentColor\" stroke-width=\"2\">\n                <polygon points=\"11 5 6 9 2 9 2 15 6 15 11 19 11 5\"></polygon>\n                <path d=\"M19.07 4.93a10 10 0 0 1 0 14.14M15.54 8.46a5 5 0 0 1 0 7.07\"></path>\n            </svg>\n            <span>"

/-- The template of lines 133 to 139 after its interpolation. -/
def audioMarkupTail : String :=
  "</span>\n        "

/-- The button built for one phonetic (lines 131 to 141): the value of
`phonetic.text || 'Play Audio'` goes into the markup as it is. -/
def audioButton (p : Phonetic) : AudioButton :=
  { className := "audio-button",
    innerHTML := audioMarkupHead ++ orElse p.text "Play Audio" ++ audioMarkupTail,
    audio := p.audio }

/-- Lines 115 to 145. -/
def displayAudioPronunciation (phonetics : Option (List Phonetic)) (s : AppState) :
    AppState :=
  let s := { s with audioButtons := [] }
  match phonetics with
  | none => hideElement .audioContainer s
  | some ps =>
    if ps.length = 0 then hideElement .audioContainer s
    else
      let audioPhonetics := ps.filter hasAudio
      if audioPhonetics.length = 0 then hideElement .audioContainer s
      else
        let s := audioPhonetics.foldl
          (fun acc p => { acc with audioButtons := acc.audioButtons ++ [audioButton p] }) s
        showElement .audioContainer s

/-- The URL handed to `new Audio` (lines 150 to 155). -/
def playAudio (audioUrl : String) : String :=
  if audioUrl.data.take 2 = ['/', '/'] then "https:" ++ audioUrl else audioUrl

/-- The rejection handler of `audio.play()` (line 158). -/
def playAudioCatch (s : AppState) : AppState :=
  showError "Unable to play audio pronunciation." s

/-- The list item built for one definition (lines 194 to 209). -/
def definitionItem (d : Definition) : DefinitionItem :=
  { text := "â€¢ " ++ d.definition,
    exampleLine :=
      match d.exampleText with
      | some ex => if truthy ex then some ("Example: \"" ++ ex ++ "\"") else none
      | none => none }

/-- A list-valued property that is present and not empty
(`xs && xs.length > 0`). -/
def nonEmpty {α : Type} (xs : Option (List α)) : Option (List α) :=
  match xs with
  | some (x :: rest) => some (x :: rest)
  | _ => none

/-- The section built for one meaning (lines 171 to 264). -/
def meaningSection (m : Meaning) : MeaningSection :=
  { partOfSpeech := m.partOfSpeech,
    definitionsSection := (nonEmpty m.definitions).map (fun ds => ds.map definitionItem),
    synonymsSection := nonEmpty m.synonyms,
    antonymsSection := nonEmpty m.antonyms }

/-- Lines 163 to 266. -/
def displayMeanings (meanings : Option (List Meaning)) (s : AppState) : AppState :=
  let s := { s with meaningsContainer := [] }
  match meanings with
  | none => s
  | some ms =>
    if ms.length = 0 then s
    else
      ms.foldl
        (fun acc m => { acc with meaningsContainer := acc.meaningsContainer ++ [meaningSection m] })
        s

/-- The template of lines 283 to 290 up to its interpolation. -/
def sourceMarkupHead : String :=
  "\n            <svg width=\"16\" height=\"16\" viewBox=\"0 0 24 24\" fill=\"none\" stroke=\"currentColor\" stroke-width=\"2\">\n                <path d=\"M18 13v6a2 2 0 0 1-2 2H5a2 2 0 0 1-2-2V8a2 2 0 0 1 2-2h6\"></path>\n                <polyline points=\"15 3 21 3 21 9\"></polyline>\n                <line x1=\"10\" y1=\"14\" x2=\"21\" y2=\"3\"></line>\n            </svg>\n            "

/-- The template of lines 283 to 290 after its interpolation. -/
def sourceMarkupTail : String :=
  "\n        "

/-- The link built for one source URL (lines 278 to 291). -/
def sourceLink (url : String) : SourceLink :=
  { href := url, target := "_blank", rel := "noopener noreferrer",
    innerHTML := sourceMarkupHead ++ url ++ sourceMarkupTail }

/-- Lines 269 to 295. -/
def displaySources (sourceUrls : Option (List String)) (s : AppState) : AppState :=
  let s := { s with sourceLinks := [] }
  match sourceUrls with
  | none => hideElement .sourceContainer s
  | some us =>
    if us.length = 0 then hideElement .sourceContainer s
    else
      let s := us.foldl
        (fun acc u => { acc with sourceLinks := acc.sourceLinks ++ [sourceLink u] }) s
      showElement .sourceContainer s

/-- Lines 89 to 112 for an entry object. -/
def displayEntry (data : Entry) (s : AppState) : AppState :=
  let s := { s with wordTitle := data.word }
  let s := { s with wordPhonetic := orElse data.phonetic "" }
  let s := updateSaveButtonState s
  let s :=
    if data.word ∈ s.savedWords then { s with wordDataSavedHighlight := true }
    else { s with wordDataSavedHighlight := false }
  let s := displayAudioPronunciation data.phonetics s
  let s := displayMeanings data.meanings s
  displaySources data.sourceUrls s

/-- Lines 89 to 112.  Reading `data.word` of `null` or `undefined` throws a
`TypeError` before anything is written; `typeErrorMessage` is the message the
engine gives the `TypeError` of this run (a run raises one at most). -/
def displayWordData (typeErrorMessage : String) (data : JSVal) (s : AppState) :
    Except String AppState :=
  match data with
  | .entry e => .ok (displayEntry e s)
  | _ => .error typeErrorMessage

/-! ## Search -/

/-- Line 27. -/
def API_BASE_URL : String := "https://api.dictionaryapi.dev/api/v2/entries/en"

/-- How the request of line 66 and the parse of line 72 can settle. -/
inductive FetchOutcome where
  /-- The promise of `fetch` rejects with an error carrying `message`. -/
  | fetchRejects (message : String)
  /-- The response arrives with `response.ok` false. -/
  | notOk
  /-- `response.ok` holds and `response.json()` rejects with `message`. -/
  | jsonRejects (message : String)
  /-- `response.ok` holds and the body parses to the array `data`
  (`none` is a `null` element). -/
  | okBody (data : List (Option Entry))
  /-- `response.ok` holds and the body parses to `null`. -/
  | okNullBody
  /-- `response.ok` holds and the body parses to a value that is not an array
  and has no property `0`: a number, a boolean, the empty string or an object
  without that key. -/
  | okPlainBody
  deriving DecidableEq

/-- The value of `data[0]` for an array. -/
def firstElement (data : List (Option Entry)) : JSVal :=
  match data with
  | [] => .undefined
  | none :: _ => .null
  | some e :: _ => .entry e

/-- Lines 55 to 63: what runs before the request is sent. -/
def handleSearchBegin (s : AppState) : AppState :=
  let s := hideElement .errorMessage s
  let s := hideElement .wordDataContainer s
  let s := hideElement .welcomeMessage s
  let s := showElement .loadingIndicator s
  let s := { s with searchButtonDisabled := true }
  { s with searchButtonText := "Searching..." }

/-- Lines 73 to 77 once `data[0]` has been read as `first`: the state when
the `try` block is left and, when it is left by a throw, the message of the
error thrown. -/
def handleSearchShow (typeErrorMessage : String) (first : JSVal) (s : AppState) :
    AppState × Option String :=
  let s := { s with currentWord := first }
  match displayWordData typeErrorMessage s.currentWord s with
  | .error m => (s, some m)
  | .ok s =>
    let s := hideElement .loadingIndicator s
    (showElement .wordDataContainer s, none)

/-- The `try` block (lines 66 to 77): the state when the block is left and,
when it is left by a throw, the message of the error thrown.  For the body
`null` reading `data[0]` throws a `TypeError` on line 73, before the
assignment. -/
def handleSearchTry (typeErrorMessage : String) (o : FetchOutcome) (s : AppState) :
    AppState × Option String :=
  match o with
  | .fetchRejects m => (s, some m)
  | .notOk => (s, some "Word not found. Please try another word.")
  | .jsonRejects m => (s, some m)
  | .okNullBody => (s, some typeErrorMessage)
  | .okPlainBody => handleSearchShow typeErrorMessage .undefined s
  | .okBody data => handleSearchShow typeErrorMessage (firstElement data) s

/-- The `catch` block (lines 80 and 81). -/
def handleSearchCatch (message : String) (s : AppState) : AppState :=
  let s := hideElement .loadingIndicator s
  showError
    (orElse (some message)
      "Failed to fetch word definition. Please check your connection and try again.") s

/-- The `finally` block (lines 83 and 84). -/
def handleSearchFinally (s : AppState) : AppState :=
  let s := { s with searchButtonDisabled := false }
  { s with searchButtonText := "Search" }

/-- Lines 65 to 85: what runs once the request has settled. -/
def handleSearchResume (typeErrorMessage : String) (o : FetchOutcome) (s : AppState) :
    AppState :=
  match handleSearchTry typeErrorMessage o s with
  | (s, some message) => handleSearchFinally (handleSearchCatch message s)
  | (s, none) => handleSearchFinally s

/-- The URL requested on line 66. -/
def requestUrl (searchTerm : String) : String :=
  API_BASE_URL ++ "/" ++ searchTerm

/-- Lines 48 to 86, for a lookup no other event interleaves with: the final
state and the URLs requested.  `net` gives the way the request for a URL
settles. -/
def handleSearch (net : String → FetchOutcome) (typeErrorMessage : String)
    (s : AppState) : AppState × List String :=
  let searchTerm := jsTrim s.searchInputValue
  if !(truthy searchTerm) then (s, [])
  else
    let s := handleSearchBegin s
    (handleSearchResume typeErrorMessage (net (requestUrl searchTerm)) s,
      [requestUrl searchTerm])

/-! ## The page as a transition system -/

/-- What can happen to the page. -/
inductive Event where
  /-- The user edits the search field. -/
  | input (value : String)
  /-- A click on the search button or Enter in the field: `handleSearch` up
  to its suspension point. -/
  | submit
  /-- A pending lookup settles and its `handleSearch` resumes. -/
  | lookupSettles (o : FetchOutcome) (typeErrorMessage : String)
  /-- A click on the save button. -/
  | save
  /-- A click on the theme toggle. -/
  | toggle
  /-- The promise of `audio.play()` rejects. -/
  | audioFails
  deriving DecidableEq

/-- The page together with the number of lookups in flight. -/
structure Sys where
  app : AppState
  inFlight : Nat
  deriving DecidableEq

/-- One event. `lookupSettles` needs a lookup in flight. -/
def step (σ : Sys) (ev : Event) : Sys :=
  match ev with
  | .input v => { σ with app := { σ.app with searchInputValue := v } }
  | .submit =>
    if !(truthy (jsTrim σ.app.searchInputValue)) then σ
    else { app := handleSearchBegin σ.app, inFlight := σ.inFlight + 1 }
  | .lookupSettles o t =>
    match σ.inFlight with
    | 0 => σ
    | n + 1 => { app := handleSearchResume t o σ.app, inFlight := n }
  | .save => { σ with app := handleSaveWord σ.app }
  | .toggle => { σ with app := toggleTheme σ.app }
  | .audioFails => { σ with app := playAudioCatch σ.app }

/-- A sequence of events. -/
def run (σ : Sys) (evs : List Event) : Sys :=
  evs.foldl step σ

/-- The page as the script finds it: the globals as declared on lines 2 to 4. -/
def Fresh (s : AppState) : Prop :=
  s.savedWords = [] ∧ s.currentWord = .null ∧ s.isDarkMode = false

/-- The system once the script has loaded: `init` has run, nothing is in
flight. -/
def start (s : AppState) : Sys :=
  { app := init s, inFlight := 0 }

/-! ## The properties the specification names -/

/-- The three regions of which the page shows one: the number of them that
do not carry `hidden`. -/
def visibleRegions (s : AppState) : Nat :=
  (if isHidden .welcomeMessage s then 0 else 1) +
  (if isHidden .errorMessage s then 0 else 1) +
  (if isHidden .wordDataContainer s then 0 else 1)

/-- The view the page starts with: the welcome region visible, the error
banner, the word-data region and the loading indicator hidden. -/
def WelcomeView (s : AppState) : Prop :=
  isHidden .welcomeMessage s = false ∧ isHidden .errorMessage s = true ∧
  isHidden .wordDataContainer s = true ∧ isHidden .loadingIndicator s = true

instance (s : AppState) : Decidable (WelcomeView s) := by
  unfold WelcomeView; infer_instance

instance (s : AppState) : Decidable (Fresh s) := by
  unfold Fresh; infer_instance

/-- No search is submitted and no audio failure arrives while a lookup is in
flight. -/
def sequential (σ : Sys) (evs : List Event) : Bool :=
  match evs with
  | [] => true
  | ev :: rest =>
    (σ.inFlight == 0 || !(ev == .submit || ev == .audioFails)) &&
      sequential (step σ ev) rest

/-- The save affordance for the entry `e`: the button reads "Saved" and is
disabled exactly when `e.word` is saved, reads "Save Word" and is enabled
otherwise, and the container is highlighted exactly when `e.word` is saved. -/
def SaveAffordance (e : Entry) (s : AppState) : Prop :=
  ((s.saveWordButtonText = "Saved" ∧ s.saveWordButtonDisabled = true) ↔
      e.word ∈ s.savedWords) ∧
  (e.word ∉ s.savedWords →
      s.saveWordButtonText = "Save Word" ∧ s.saveWordButtonDisabled = false) ∧
  (s.wordDataSavedHighlight = true ↔ e.word ∈ s.savedWords)

/-- The phonetics the specification calls actionable, in its words: the
`audioUrl` is present and not the empty string. -/
def specHasAudio (p : Phonetic) : Bool :=
  match p.audio with
  | some a => decide (a ≠ "")
  | none => false

/-- The phonetics that get a button: the audio URL is present and still not
empty once its surrounding white space is trimmed. -/
def hasTrimmedAudio (p : Phonetic) : Bool :=
  match p.audio with
  | some a => decide (jsTrim a ≠ "")
  | none => false

/-- The label the specification gives a button: the text, or "Play Audio"
when the text is missing or empty. -/
def specLabel (p : Phonetic) : String :=
  match p.text with
  | some t => if t = "" then "Play Audio" else t
  | none => "Play Audio"

/-- The characters that start markup or a character reference in HTML text. -/
def isMarkupChar (c : Char) : Bool :=
  c == '&' || c == '<' || c == '>'

/-- HTML text escaping on a character list. -/
def escapeChars : List Char → List Char
  | [] => []
  | c :: cs =>
    (if c == '&' then "&amp;".data
     else if c == '<' then "&lt;".data
     else if c == '>' then "&gt;".data
     else [c]) ++ escapeChars cs

/-- The value line 73 reads as `data[0]`, when the body was parsed and the
read does not throw. -/
def firstRead (o : FetchOutcome) : Option JSVal :=
  match o with
  | .okBody data => some (firstElement data)
  | .okPlainBody => some .undefined
  | _ => none

/-- The markup that stands for the text `s` itself. -/
def escapeHtml (s : String) : String :=
  String.mk (escapeChars s.data)

/-- The button markup whose `span` holds `label` as text. -/
def labelledMarkup (label : String) : String :=
  audioMarkupHead ++ escapeHtml label ++ audioMarkupTail

/-- The save button and the highlight agree with `savedWords` whenever an
entry is current. -/
def Synced (s : AppState) : Prop :=
  ∀ e, s.currentWord = .entry e → SaveAffordance e s

/-- Idle with one region shown, or one lookup in flight with none shown. -/
def RegionInv (σ : Sys) : Prop :=
  (σ.inFlight = 0 ∧ visibleRegions σ.app = 1) ∨
  (σ.inFlight = 1 ∧ visibleRegions σ.app = 0)

/-! ## Sample data -/

/-- A page as the markup delivers it: only the welcome region is shown. -/
def pageLoad : AppState :=
  { savedWords := [], currentWord := .null, isDarkMode := false,
    searchInputValue := "", searchButtonDisabled := false, searchButtonText := "Search",
    errorMessageHidden := true, errorText := "", loadingIndicatorHidden := true,
    wordDataContainerHidden := true, wordDataSavedHighlight := false,
    welcomeMessageHidden := false, savedWordsContainerHidden := true, savedWordsList := [],
    wordTitle := "", wordPhonetic := "", saveWordButtonText := "Save Word",
    saveWordButtonSavedClass := false, saveWordButtonDisabled := false,
    audioContainerHidden := true, audioButtons := [], meaningsContainer := [],
    sourceContainerHidden := true, sourceLinks := [], bodyDarkMode := false,
    sunIconHidden := false, moonIconHidden := true }

/-- The entry of the specification's end-to-end example. -/
def helloEntry : Entry :=
  { word := "hello", phonetic := some "/həˈləʊ/",
    phonetics := some [{ text := some "/həˈləʊ/", audio := some "//example.com/a.mp3" },
                       { text := none, audio := some "" }],
    meanings := some [{ partOfSpeech := "exclamation",
                        definitions := some [{ definition := "used as a greeting",
                                               exampleText := none }],
                        synonyms := some [], antonyms := some [] }],
    sourceUrls := none }

/-- A second entry for the same headword. -/
def helloNoun : Entry :=
  { word := "hello", phonetic := none, phonetics := none, meanings := none,
    sourceUrls := none }

/-- The page with `value` typed into the search field. -/
def typed (value : String) (s : AppState) : AppState :=
  { s with searchInputValue := value }

/-- The page after a successful lookup of "hello". -/
def showingHello : AppState :=
  (handleSearch (fun _ => .okBody [some helloEntry]) "" (typed "hello" pageLoad)).1

/-- A phonetic whose audio URL is a single space. -/
def blankAudio : Phonetic :=
  { text := some "/a/", audio := some " " }

/-- Enter pressed twice for "hello": the first lookup ends with a response
that is not ok, the second with a body of two entries. -/
def overlappingLookups : List Event :=
  [.input "hello", .submit, .submit, .lookupSettles .notOk "",
   .lookupSettles (.okBody [some helloEntry, some helloNoun]) ""]

/-- A lookup of "hello" that succeeds, then a second one during which a
pending `audio.play()` rejects before the body of two entries arrives. -/
def audioFailsWhileLoading : List Event :=
  [.input "hello", .submit, .lookupSettles (.okBody [some helloEntry]) "",
   .submit, .audioFails, .lookupSettles (.okBody [some helloEntry, some helloNoun]) ""]

/-- A phonetic whose text holds a character reference and a tag. -/
def markupText : Phonetic :=
  { text := some "a &amp; <i>b</i>", audio := some "//example.com/a.mp3" }

/-! ## Auxiliary facts -/

/-- Trimming the end leaves nothing exactly when every character is white
space. -/
theorem trimEndChars_eq_nil (cs : List Char) :
    trimEndChars cs = [] ↔ ∀ c ∈ cs, isJSWhitespace c = true := by
  induction cs with
  | nil => simp [trimEndChars]
  | cons c cs ih =>
    simp only [trimEndChars, List.mem_cons, forall_eq_or_imp]
    cases h : trimEndChars cs with
    | nil =>
      have := ih.mp h
      by_cases hc : isJSWhitespace c = true
      · simpa [hc] using this
      · simp [hc]
    | cons a r =>
      simp only [reduceCtorEq, false_iff, not_and]
      intro _ hall
      rw [ih.mpr hall] at h
      exact absurd h (by simp)

/-- Trimming both ends leaves nothing exactly when every character is white
space. -/
theorem trimChars_eq_nil (cs : List Char) :
    trimChars cs = [] ↔ ∀ c ∈ cs, isJSWhitespace c = true := by
  unfold trimChars
  constructor
  · intro h
    have h1 := (trimEndChars_eq_nil _).mp h
    by_contra hne
    have hd : cs.dropWhile isJSWhitespace ≠ [] := by
      intro h0
      exact hne (by simpa [List.dropWhile_eq_nil_iff] using h0)
    have := List.head_dropWhile_not isJSWhitespace cs hd
    have h2 := h1 _ (List.head_mem hd)
    simp [h2] at this
  · intro h
    have : cs.dropWhile isJSWhitespace = [] := by
      simpa [List.dropWhile_eq_nil_iff] using h
    simp [this, trimEndChars]

/-- The trimmed value is the empty string exactly when the value is empty or
holds white space only. -/
theorem jsTrim_eq_empty (v : String) :
    jsTrim v = "" ↔ ∀ c ∈ v.data, isJSWhitespace c = true := by
  rw [← trimChars_eq_nil]
  unfold jsTrim
  constructor
  · intro h
    have := congrArg String.data h
    simpa using this
  · intro h
    rw [h]

/-- A string is truthy exactly when it is not the empty string. -/
theorem truthy_iff (v : String) : truthy v = true ↔ v ≠ "" := by
  unfold truthy
  cases v with
  | mk d =>
    cases d with
    | nil => simp
    | cons a r =>
      simp
      intro h
      have := congrArg String.data h
      simp at this

/-- `m || fb` for a string `m`. -/
theorem orElse_some (m fb : String) : orElse (some m) fb = if m = "" then fb else m := by
  unfold orElse
  by_cases h : m = ""
  · subst h; simp [truthy]
  · simp [h, (truthy_iff m).mpr h]

/-- `x || ''` is the property when present, the empty string otherwise. -/
theorem orElse_empty (x : Option String) : orElse x "" = x.getD "" := by
  cases x with
  | none => rfl
  | some m =>
    rw [orElse_some]
    by_cases h : m = "" <;> simp [h]

theorem foldl_audioButtons (l : List Phonetic) (s : AppState) :
    l.foldl (fun acc p => { acc with audioButtons := acc.audioButtons ++ [audioButton p] }) s
      = { s with audioButtons := s.audioButtons ++ l.map audioButton } := by
  induction l generalizing s with
  | nil => simp
  | cons p l ih => simp [ih]

theorem foldl_meanings (l : List Meaning) (s : AppState) :
    l.foldl (fun acc m => { acc with meaningsContainer := acc.meaningsContainer ++ [meaningSection m] }) s
      = { s with meaningsContainer := s.meaningsContainer ++ l.map meaningSection } := by
  induction l generalizing s with
  | nil => simp
  | cons p l ih => simp [ih]

theorem foldl_sourceLinks (l : List String) (s : AppState) :
    l.foldl (fun acc u => { acc with sourceLinks := acc.sourceLinks ++ [sourceLink u] }) s
      = { s with sourceLinks := s.sourceLinks ++ l.map sourceLink } := by
  induction l generalizing s with
  | nil => simp
  | cons p l ih => simp [ih]

theorem foldl_savedWordsList (l : List String) (s : AppState) :
    l.foldl (fun acc word => { acc with savedWordsList := acc.savedWordsList ++ [word] }) s
      = { s with savedWordsList := s.savedWordsList ++ l } := by
  induction l generalizing s with
  | nil => simp
  | cons p l ih => simp [ih]

/-- What `updateSavedWordsDisplay` writes: the tags and the `hidden` class of
the saved-words section, nothing else. -/
theorem updateSavedWordsDisplay_eq (s : AppState) :
    updateSavedWordsDisplay s =
      { s with savedWordsList := s.savedWords,
               savedWordsContainerHidden := s.savedWords.isEmpty } := by
  unfold updateSavedWordsDisplay
  cases h : s.savedWords with
  | nil => simp [h, hideElement, setHidden]
  | cons a r => simp [h, foldl_savedWordsList, showElement, setHidden]

/-- What `displayAudioPronunciation` writes: the buttons and the `hidden` class
of the audio section, nothing else. -/
theorem displayAudioPronunciation_eq (ph : Option (List Phonetic)) (s : AppState) :
    displayAudioPronunciation ph s =
      { s with audioButtons := ((ph.getD []).filter hasAudio).map audioButton,
               audioContainerHidden := ((ph.getD []).filter hasAudio).isEmpty } := by
  unfold displayAudioPronunciation
  cases ph with
  | none => simp [hideElement, setHidden]
  | some ps =>
    cases ps with
    | nil => simp [hideElement, setHidden]
    | cons p ps =>
      simp only [List.length_cons, Nat.add_one_ne_zero, ↓reduceIte, Option.getD_some]
      cases h : List.filter hasAudio (p :: ps) with
      | nil => simp [hideElement, setHidden]
      | cons a r => simp [foldl_audioButtons, showElement, setHidden]

/-- What `displayMeanings` writes: the meaning sections, nothing else. -/
theorem displayMeanings_eq (ms : Option (List Meaning)) (s : AppState) :
    displayMeanings ms s = { s with meaningsContainer := (ms.getD []).map meaningSection } := by
  unfold displayMeanings
  cases ms with
  | none => simp
  | some l =>
    cases l with
    | nil => simp
    | cons a r => simp [foldl_meanings]

/-- What `displaySources` writes: the links and the `hidden` class of the
source section, nothing else. -/
theorem displaySources_eq (us : Option (List String)) (s : AppState) :
    displaySources us s =
      { s with sourceLinks := (us.getD []).map sourceLink,
               sourceContainerHidden := (us.getD []).isEmpty } := by
  unfold displaySources
  cases us with
  | none => simp [hideElement, setHidden]
  | some l =>
    cases l with
    | nil => simp [hideElement, setHidden]
    | cons a r => simp [foldl_sourceLinks, showElement, setHidden]


/-- What rendering an entry writes. -/
theorem displayEntry_eq (e : Entry) (s : AppState) :
    displayEntry e s =
      { updateSaveButtonState { s with wordTitle := e.word, wordPhonetic := orElse e.phonetic "" } with
        wordDataSavedHighlight := decide (e.word ∈ s.savedWords),
        audioButtons := ((e.phonetics.getD []).filter hasAudio).map audioButton,
        audioContainerHidden := ((e.phonetics.getD []).filter hasAudio).isEmpty,
        meaningsContainer := (e.meanings.getD []).map meaningSection,
        sourceLinks := (e.sourceUrls.getD []).map sourceLink,
        sourceContainerHidden := (e.sourceUrls.getD []).isEmpty } := by
  unfold displayEntry
  simp only [displaySources_eq, displayMeanings_eq, displayAudioPronunciation_eq]
  have hs : (updateSaveButtonState { s with wordTitle := e.word, wordPhonetic := orElse e.phonetic "" }).savedWords
      = s.savedWords := by
    unfold updateSaveButtonState
    split <;> [split; skip] <;> rfl
  by_cases h : e.word ∈ s.savedWords <;> simp [hs, h]

/-- With a non-empty trimmed term `handleSearch` sends one request and resumes
with the way it settles. -/
theorem handleSearch_nonblank (net : String → FetchOutcome) (t : String) (s : AppState)
    (h : jsTrim s.searchInputValue ≠ "") :
    handleSearch net t s =
      (handleSearchResume t (net (requestUrl (jsTrim s.searchInputValue))) (handleSearchBegin s),
        [requestUrl (jsTrim s.searchInputValue)]) := by
  unfold handleSearch
  simp [(truthy_iff _).mpr h]

/-- What `handleSearchBegin` writes. -/
theorem handleSearchBegin_eq (s : AppState) :
    handleSearchBegin s =
      { s with errorMessageHidden := true, wordDataContainerHidden := true,
               welcomeMessageHidden := true, loadingIndicatorHidden := false,
               searchButtonDisabled := true, searchButtonText := "Searching..." } := by
  simp [handleSearchBegin, hideElement, showElement, setHidden]

/-- What `showError` writes. -/
theorem showError_eq (m : String) (s : AppState) :
    showError m s =
      { s with errorText := m, errorMessageHidden := false, wordDataContainerHidden := true,
               welcomeMessageHidden := true } := by
  simp [showError, hideElement, showElement, setHidden]

/-- The state after the `catch` and `finally` blocks. -/
theorem handleSearch_caught_eq (m : String) (s : AppState) :
    handleSearchFinally (handleSearchCatch m s) =
      { s with loadingIndicatorHidden := true, errorText := orElse (some m)
                 "Failed to fetch word definition. Please check your connection and try again.",
               errorMessageHidden := false, wordDataContainerHidden := true,
               welcomeMessageHidden := true, searchButtonDisabled := false,
               searchButtonText := "Search" } := by
  simp [handleSearchFinally, handleSearchCatch, showError, hideElement, showElement, setHidden]

theorem handleSearchResume_fetchRejects (t m : String) (s : AppState) :
    handleSearchResume t (.fetchRejects m) s = handleSearchFinally (handleSearchCatch m s) := rfl

theorem handleSearchResume_jsonRejects (t m : String) (s : AppState) :
    handleSearchResume t (.jsonRejects m) s = handleSearchFinally (handleSearchCatch m s) := rfl

theorem handleSearchResume_notOk (t : String) (s : AppState) :
    handleSearchResume t .notOk s =
      handleSearchFinally (handleSearchCatch "Word not found. Please try another word." s) := rfl

theorem handleSearchResume_okNullBody (t : String) (s : AppState) :
    handleSearchResume t .okNullBody s = handleSearchFinally (handleSearchCatch t s) := rfl

/-- A lookup that leaves the `try` block before `data[0]` is read goes through
`catch` and `finally` from the state it resumed in. -/
theorem handleSearchResume_nothing_read (t : String) (o : FetchOutcome) (s : AppState)
    (h : firstRead o = none) :
    ∃ m, handleSearchResume t o s = handleSearchFinally (handleSearchCatch m s) := by
  cases o with
  | fetchRejects m => exact ⟨m, rfl⟩
  | notOk => exact ⟨_, rfl⟩
  | jsonRejects m => exact ⟨m, rfl⟩
  | okNullBody => exact ⟨t, rfl⟩
  | okPlainBody => simp [firstRead] at h
  | okBody data => simp [firstRead] at h

/-- A first element that is not an entry object is stored and then fails to
render. -/
theorem handleSearchResume_unrenderable (t : String) (o : FetchOutcome) (s : AppState)
    (v : JSVal) (h : firstRead o = some v) (hv : ∀ e, v ≠ .entry e) :
    handleSearchResume t o s =
      handleSearchFinally (handleSearchCatch t { s with currentWord := v }) := by
  have key : handleSearchShow t v s = ({ s with currentWord := v }, some t) := by
    cases v with
    | entry e => exact absurd rfl (hv e)
    | null => rfl
    | undefined => rfl
  cases o with
  | fetchRejects m => simp [firstRead] at h
  | notOk => simp [firstRead] at h
  | jsonRejects m => simp [firstRead] at h
  | okNullBody => simp [firstRead] at h
  | okPlainBody =>
    simp only [firstRead, Option.some.injEq] at h
    subst h
    simp only [handleSearchResume, handleSearchTry, key]
  | okBody data =>
    simp only [firstRead, Option.some.injEq] at h
    simp only [handleSearchResume, handleSearchTry, h, key]

/-- A first element that is an entry object is stored and rendered. -/
theorem handleSearchResume_entry (t : String) (o : FetchOutcome) (s : AppState) (e : Entry)
    (h : firstRead o = some (.entry e)) :
    handleSearchResume t o s =
      { displayEntry e { s with currentWord := .entry e } with
        loadingIndicatorHidden := true, wordDataContainerHidden := false,
        searchButtonDisabled := false, searchButtonText := "Search" } := by
  cases o with
  | fetchRejects m => simp [firstRead] at h
  | notOk => simp [firstRead] at h
  | jsonRejects m => simp [firstRead] at h
  | okNullBody => simp [firstRead] at h
  | okPlainBody => simp [firstRead] at h
  | okBody data =>
    simp only [firstRead, Option.some.injEq] at h
    simp [handleSearchResume, handleSearchTry, handleSearchShow, h, displayWordData,
      handleSearchFinally, hideElement, showElement, setHidden]

/-- What rendering an entry leaves alone. -/
theorem displayEntry_frame (e : Entry) (s : AppState) :
    (displayEntry e s).currentWord = s.currentWord ∧
    (displayEntry e s).savedWords = s.savedWords ∧
    (displayEntry e s).welcomeMessageHidden = s.welcomeMessageHidden ∧
    (displayEntry e s).errorMessageHidden = s.errorMessageHidden := by
  rw [displayEntry_eq]
  unfold updateSaveButtonState
  simp only
  split <;> [split; skip] <;> exact ⟨rfl, rfl, rfl, rfl⟩

/-- Claim C1.  When the trimmed value of the search field is the empty string,
`handleSearch` requests nothing and returns the state it was given: every
global and every part of the document is as before. -/
theorem handleSearch_blank_noop (net : String → FetchOutcome) (t : String) (s : AppState)
    (h : jsTrim s.searchInputValue = "") :
    handleSearch net t s = (s, []) := by
  unfold handleSearch
  simp [h, truthy]

/-- Claim C1 at a field holding a space, a tab and a line feed, on a page that
shows an entry. -/
theorem handleSearch_blank_noop_witness :
    jsTrim (typed " \t\n" showingHello).searchInputValue = "" ∧
    handleSearch (fun _ => .notOk) "" (typed " \t\n" showingHello)
      = (typed " \t\n" showingHello, []) :=
  ⟨by decide, handleSearch_blank_noop _ _ _ (by decide)⟩

/-- A lookup that settles with an ok response whose body starts with the entry
`e`, resumed in any state: `currentWord` is `e` whatever follows it in the
array, the title shows `e.word`, the phonetic shows `e.phonetic` or the empty
string, the loading indicator is hidden and the word-data region shown.
Lines 72 to 77 do not touch the error banner: it stays as the resuming code
finds it. -/
theorem handleSearchResume_first_entry (t : String) (e : Entry)
    (rest : List (Option Entry)) (s : AppState) :
    (handleSearchResume t (.okBody (some e :: rest)) s).currentWord = .entry e ∧
    (handleSearchResume t (.okBody (some e :: rest)) s).wordTitle = e.word ∧
    (handleSearchResume t (.okBody (some e :: rest)) s).wordPhonetic = e.phonetic.getD "" ∧
    isHidden .loadingIndicator (handleSearchResume t (.okBody (some e :: rest)) s) = true ∧
    isHidden .wordDataContainer (handleSearchResume t (.okBody (some e :: rest)) s) = false ∧
    isHidden .errorMessage (handleSearchResume t (.okBody (some e :: rest)) s)
      = isHidden .errorMessage s := by
  rw [handleSearchResume_entry t (.okBody (some e :: rest)) s e rfl, displayEntry_eq,
    ← orElse_empty]
  simp only [isHidden, updateSaveButtonState]
  split <;> simp

/-- The same lookup with nothing else happening between the request and the
response: the error banner, hidden on line 56, is still hidden at the end. -/
theorem handleSearch_shows_first_entry (net : String → FetchOutcome) (t : String)
    (s : AppState) (e : Entry) (rest : List (Option Entry))
    (hterm : jsTrim s.searchInputValue ≠ "")
    (hnet : net (requestUrl (jsTrim s.searchInputValue)) = .okBody (some e :: rest)) :
    (handleSearch net t s).2 = [requestUrl (jsTrim s.searchInputValue)] ∧
    (handleSearch net t s).1.currentWord = .entry e ∧
    (handleSearch net t s).1.wordTitle = e.word ∧
    (handleSearch net t s).1.wordPhonetic = e.phonetic.getD "" ∧
    isHidden .loadingIndicator (handleSearch net t s).1 = true ∧
    isHidden .errorMessage (handleSearch net t s).1 = true ∧
    isHidden .wordDataContainer (handleSearch net t s).1 = false := by
  rw [handleSearch_nonblank net t s hterm, hnet]
  obtain ⟨h1, h2, h3, h4, h5, h6⟩ := handleSearchResume_first_entry t e rest (handleSearchBegin s)
  refine ⟨rfl, h1, h2, h3, h4, ?_, h5⟩
  rw [h6, handleSearchBegin_eq]
  rfl

/-- Claim C2 fails on the page.  When Enter is pressed while a lookup is in
flight (the keypress listener of lines 31 to 35 does not look at the disabled
button), or when a pending `audio.play()` rejects meanwhile, a lookup that
ends with an ok response and a body of two entries leaves `currentWord`, the
title, the phonetic, the loading indicator and the word-data region as the
claim says, and the error banner shown. -/
theorem successful_lookup_leaves_banner_shown :
    (run (start pageLoad) overlappingLookups).inFlight = 0 ∧
    (run (start pageLoad) overlappingLookups).app.currentWord = .entry helloEntry ∧
    (run (start pageLoad) overlappingLookups).app.wordTitle = "hello" ∧
    (run (start pageLoad) overlappingLookups).app.wordPhonetic = "/həˈləʊ/" ∧
    isHidden .loadingIndicator (run (start pageLoad) overlappingLookups).app = true ∧
    isHidden .wordDataContainer (run (start pageLoad) overlappingLookups).app = false ∧
    isHidden .errorMessage (run (start pageLoad) overlappingLookups).app = false ∧
    (run (start pageLoad) audioFailsWhileLoading).inFlight = 0 ∧
    (run (start pageLoad) audioFailsWhileLoading).app.currentWord = .entry helloEntry ∧
    isHidden .wordDataContainer (run (start pageLoad) audioFailsWhileLoading).app = false ∧
    isHidden .errorMessage (run (start pageLoad) audioFailsWhileLoading).app = false := by
  decide

/-- Claim C3.  For a non-empty trimmed term and a response whose `ok` is
false, `handleSearch` ends with the error banner shown with the text
"Word not found. Please try another word.", the word-data and welcome regions
hidden, the loading indicator hidden and the search button enabled with the
label "Search". -/
theorem handleSearch_not_found (net : String → FetchOutcome) (t : String) (s : AppState)
    (hterm : jsTrim s.searchInputValue ≠ "")
    (hnet : net (requestUrl (jsTrim s.searchInputValue)) = .notOk) :
    isHidden .errorMessage (handleSearch net t s).1 = false ∧
    (handleSearch net t s).1.errorText = "Word not found. Please try another word." ∧
    isHidden .wordDataContainer (handleSearch net t s).1 = true ∧
    isHidden .welcomeMessage (handleSearch net t s).1 = true ∧
    isHidden .loadingIndicator (handleSearch net t s).1 = true ∧
    (handleSearch net t s).1.searchButtonDisabled = false ∧
    (handleSearch net t s).1.searchButtonText = "Search" := by
  rw [handleSearch_nonblank net t s hterm, hnet]
  simp [handleSearchResume, handleSearchTry, handleSearchCatch, handleSearchFinally,
    showError, orElse, truthy, hideElement, showElement, setHidden, isHidden]

/-- Claim C3 at the term "zzzxxx123", looked up from a page that shows an
entry. -/
theorem handleSearch_not_found_witness :
    isHidden .errorMessage
        (handleSearch (fun _ => .notOk) "" (typed "zzzxxx123" showingHello)).1 = false ∧
    (handleSearch (fun _ => .notOk) "" (typed "zzzxxx123" showingHello)).1.errorText
        = "Word not found. Please try another word." ∧
    isHidden .wordDataContainer
        (handleSearch (fun _ => .notOk) "" (typed "zzzxxx123" showingHello)).1 = true ∧
    isHidden .welcomeMessage
        (handleSearch (fun _ => .notOk) "" (typed "zzzxxx123" showingHello)).1 = true ∧
    isHidden .loadingIndicator
        (handleSearch (fun _ => .notOk) "" (typed "zzzxxx123" showingHello)).1 = true ∧
    (handleSearch (fun _ => .notOk) "" (typed "zzzxxx123" showingHello)).1.searchButtonDisabled
        = false ∧
    (handleSearch (fun _ => .notOk) "" (typed "zzzxxx123" showingHello)).1.searchButtonText
        = "Search" :=
  handleSearch_not_found (fun _ => .notOk) "" (typed "zzzxxx123" showingHello)
    (by decide) (by decide)

/-- Claim C4 fails as stated: when `fetch` rejects with the message
"Failed to fetch", the banner shows that message and not the connectivity
text. -/
theorem connectivity_message_counterexample :
    jsTrim (typed "hello" pageLoad).searchInputValue ≠ "" ∧
    (handleSearch (fun _ => .fetchRejects "Failed to fetch") "" (typed "hello" pageLoad)).1.errorText
      = "Failed to fetch" ∧
    (handleSearch (fun _ => .fetchRejects "Failed to fetch") "" (typed "hello" pageLoad)).1.errorText
      ≠ "Failed to fetch word definition. Please check your connection and try again." := by
  decide

/-- Claim C4, amended.  When `fetch` or `response.json()` rejects with an
error whose message is `m`, the banner is shown with `m` itself, and with the
connectivity text only when `m` is empty. -/
theorem handleSearch_exception_message (net : String → FetchOutcome) (t : String)
    (s : AppState) (m : String)
    (hterm : jsTrim s.searchInputValue ≠ "")
    (hnet : net (requestUrl (jsTrim s.searchInputValue)) = .fetchRejects m ∨
            net (requestUrl (jsTrim s.searchInputValue)) = .jsonRejects m) :
    isHidden .errorMessage (handleSearch net t s).1 = false ∧
    (handleSearch net t s).1.errorText =
      if m = "" then
        "Failed to fetch word definition. Please check your connection and try again."
      else m := by
  rw [handleSearch_nonblank net t s hterm]
  rcases hnet with h | h <;> rw [h] <;>
    simp [handleSearchResume, handleSearchTry, handleSearchCatch, handleSearchFinally,
      showError, orElse_some, hideElement, showElement, setHidden, isHidden]

/-- Claim C4, amended, at a parse error with an empty message. -/
theorem handleSearch_exception_message_witness :
    (handleSearch (fun _ => .jsonRejects "") "" (typed "hello" pageLoad)).1.errorText
      = "Failed to fetch word definition. Please check your connection and try again." :=
  (handleSearch_exception_message (fun _ => .jsonRejects "") "" (typed "hello" pageLoad) ""
    (by decide) (Or.inr rfl)).2

/-- Claim C5.  For a non-empty trimmed term, however the lookup settles
(`net` and the `TypeError` message are arbitrary), `handleSearch` ends with
the search button enabled and labelled "Search". -/
theorem handleSearch_reenables_button (net : String → FetchOutcome) (t : String)
    (s : AppState) (hterm : jsTrim s.searchInputValue ≠ "") :
    (handleSearch net t s).1.searchButtonDisabled = false ∧
    (handleSearch net t s).1.searchButtonText = "Search" := by
  rw [handleSearch_nonblank net t s hterm]
  unfold handleSearchResume
  split <;> simp [handleSearchFinally]

/-- Claim C5 at a body whose first element is `null`, which throws while
rendering. -/
theorem handleSearch_reenables_button_witness :
    (handleSearch (fun _ => .okBody [none]) "Cannot read properties of null (reading 'word')"
        (typed "hello" pageLoad)).1.searchButtonDisabled = false ∧
    (handleSearch (fun _ => .okBody [none]) "Cannot read properties of null (reading 'word')"
        (typed "hello" pageLoad)).1.searchButtonText = "Search" :=
  handleSearch_reenables_button _ _ _ (by decide)

/-- Claim C6 fails as stated: with "hello" stored and shown, an ok response
whose body is the empty array ends in the error banner and leaves
`currentWord` `undefined`. -/
theorem failed_lookup_clears_entry_counterexample :
    showingHello.currentWord = .entry helloEntry ∧
    jsTrim (typed "hello" showingHello).searchInputValue ≠ "" ∧
    isHidden .errorMessage
      (handleSearch (fun _ => .okBody []) "Cannot read properties of undefined (reading 'word')"
        (typed "hello" showingHello)).1 = false ∧
    (handleSearch (fun _ => .okBody []) "Cannot read properties of undefined (reading 'word')"
        (typed "hello" showingHello)).1.currentWord = .undefined ∧
    (handleSearch (fun _ => .okBody []) "Cannot read properties of undefined (reading 'word')"
        (typed "hello" showingHello)).1.currentWord ≠ (typed "hello" showingHello).currentWord := by
  decide

/-- Claim C6, amended.  A lookup that ends in the error state because the
response is not ok, because `fetch` or `response.json()` rejects, or because
the body is `null` (reading `data[0]` throws) leaves `currentWord` as it was
when the response arrived, whatever state `s` that is, and so as it was before
`handleSearch` when nothing else happened in between.  A lookup that ends in
the error state because the value read as `data[0]` cannot be rendered
(`undefined` for an empty array, or `null`) has stored that value in
`currentWord` on line 73. -/
theorem failed_lookup_currentWord (net : String → FetchOutcome) (t : String)
    (s0 s : AppState) (o : FetchOutcome)
    (hterm : jsTrim s0.searchInputValue ≠ "")
    (hnet : net (requestUrl (jsTrim s0.searchInputValue)) = o) :
    ((o = .notOk ∨ (∃ m, o = .fetchRejects m) ∨ (∃ m, o = .jsonRejects m) ∨
        o = .okNullBody) →
      isHidden .errorMessage (handleSearchResume t o s) = false ∧
      (handleSearchResume t o s).currentWord = s.currentWord ∧
      isHidden .errorMessage (handleSearch net t s0).1 = false ∧
      (handleSearch net t s0).1.currentWord = s0.currentWord) ∧
    (∀ v, firstRead o = some v → (∀ e, v ≠ .entry e) →
      isHidden .errorMessage (handleSearchResume t o s) = false ∧
      (handleSearchResume t o s).currentWord = v ∧
      isHidden .errorMessage (handleSearch net t s0).1 = false ∧
      (handleSearch net t s0).1.currentWord = v) := by
  rw [handleSearch_nonblank net t s0 hterm, hnet]
  refine ⟨?_, ?_⟩
  · intro ho
    have hr : firstRead o = none := by
      rcases ho with h | ⟨m, h⟩ | ⟨m, h⟩ | h <;> rw [h] <;> rfl
    obtain ⟨m, hm⟩ := handleSearchResume_nothing_read t o s hr
    obtain ⟨m0, hm0⟩ := handleSearchResume_nothing_read t o (handleSearchBegin s0) hr
    rw [hm, hm0, handleSearch_caught_eq, handleSearch_caught_eq, handleSearchBegin_eq]
    exact ⟨rfl, rfl, rfl, rfl⟩
  · intro v hr hv
    rw [handleSearchResume_unrenderable t o s v hr hv,
      handleSearchResume_unrenderable t o (handleSearchBegin s0) v hr hv,
      handleSearch_caught_eq, handleSearch_caught_eq]
    exact ⟨rfl, rfl, rfl, rfl⟩

/-- Claim C6, amended, at a body `null` received while "hello" is stored. -/
theorem failed_lookup_currentWord_witness :
    isHidden .errorMessage
      (handleSearch (fun _ => .okNullBody) "Cannot read properties of null (reading '0')"
        (typed "zzzxxx123" showingHello)).1 = false ∧
    (handleSearch (fun _ => .okNullBody) "Cannot read properties of null (reading '0')"
        (typed "zzzxxx123" showingHello)).1.currentWord = .entry helloEntry :=
  ⟨((failed_lookup_currentWord (fun _ => .okNullBody)
        "Cannot read properties of null (reading '0')" (typed "zzzxxx123" showingHello)
        showingHello .okNullBody (by decide) rfl).1 (Or.inr (Or.inr (Or.inr rfl)))).2.2.1,
   ((failed_lookup_currentWord (fun _ => .okNullBody)
        "Cannot read properties of null (reading '0')" (typed "zzzxxx123" showingHello)
        showingHello .okNullBody (by decide) rfl).1 (Or.inr (Or.inr (Or.inr rfl)))).2.2.2⟩

/-- Saving a word that is not saved yet. -/
theorem handleSaveWord_new (s : AppState) (e : Entry) (hc : s.currentWord = .entry e)
    (hn : e.word ∉ s.savedWords) :
    handleSaveWord s =
      { s with savedWords := s.savedWords ++ [e.word],
               saveWordButtonText := "Saved", saveWordButtonSavedClass := true,
               saveWordButtonDisabled := true,
               savedWordsList := s.savedWords ++ [e.word],
               savedWordsContainerHidden := false,
               wordDataSavedHighlight := true } := by
  unfold handleSaveWord
  rw [hc]
  simp [hn, updateSaveButtonState, updateSavedWordsDisplay_eq, hc]

/-- Saving a word that is saved already changes nothing. -/
theorem handleSaveWord_old (s : AppState) (e : Entry) (hc : s.currentWord = .entry e)
    (hm : e.word ∈ s.savedWords) : handleSaveWord s = s := by
  unfold handleSaveWord
  rw [hc]
  simp [hm]

/-- Saving with no current word changes nothing. -/
theorem handleSaveWord_absent (s : AppState)
    (hc : s.currentWord = .null ∨ s.currentWord = .undefined) : handleSaveWord s = s := by
  unfold handleSaveWord
  rcases hc with h | h <;> rw [h]

/-- Claim C7.  When `savedWords` has no duplicates, `handleSaveWord` keeps it
free of duplicates, a second call changes nothing, the current word then
occurs exactly once, an absent `currentWord` or a word already saved leaves the
state as it was, and a word not yet saved is appended after the earlier
ones. -/
theorem handleSaveWord_keeps_nodup (s : AppState) (h : s.savedWords.Nodup) :
    (handleSaveWord s).savedWords.Nodup ∧
    handleSaveWord (handleSaveWord s) = handleSaveWord s ∧
    (∀ e, s.currentWord = .entry e → (handleSaveWord s).savedWords.count e.word = 1) ∧
    (s.currentWord = .null ∨ s.currentWord = .undefined → handleSaveWord s = s) ∧
    (∀ e, s.currentWord = .entry e → e.word ∈ s.savedWords → handleSaveWord s = s) ∧
    (∀ e, s.currentWord = .entry e → e.word ∉ s.savedWords →
      (handleSaveWord s).savedWords = s.savedWords ++ [e.word]) := by
  have key : ∀ e, s.currentWord = .entry e →
      (handleSaveWord s).savedWords.Nodup ∧ handleSaveWord (handleSaveWord s) = handleSaveWord s ∧
      (handleSaveWord s).savedWords.count e.word = 1 := by
    intro e hc
    by_cases hm : e.word ∈ s.savedWords
    · rw [handleSaveWord_old s e hc hm, handleSaveWord_old s e hc hm]
      exact ⟨h, rfl, List.count_eq_one_of_mem h hm⟩
    · have e1 := handleSaveWord_new s e hc hm
      have hmem : e.word ∈ (handleSaveWord s).savedWords := by rw [e1]; simp
      have hcur : (handleSaveWord s).currentWord = .entry e := by rw [e1]; exact hc
      have hnd : (handleSaveWord s).savedWords.Nodup := by
        rw [e1]
        simp only
        rw [List.nodup_append]
        refine ⟨h, List.nodup_singleton _, ?_⟩
        intro a ha hb
        simp only [List.mem_singleton] at hb
        exact hm (hb ▸ ha)
      exact ⟨hnd, handleSaveWord_old _ e hcur hmem, List.count_eq_one_of_mem hnd hmem⟩
  refine ⟨?_, ?_, fun e hc => (key e hc).2.2, handleSaveWord_absent s,
    fun e hc hm => handleSaveWord_old s e hc hm, ?_⟩
  · cases hc : s.currentWord with
    | entry e => exact (key e hc).1
    | null => rw [handleSaveWord_absent s (Or.inl hc)]; exact h
    | undefined => rw [handleSaveWord_absent s (Or.inr hc)]; exact h
  · cases hc : s.currentWord with
    | entry e => exact (key e hc).2.1
    | null => rw [handleSaveWord_absent s (Or.inl hc)]; exact handleSaveWord_absent s (Or.inl hc)
    | undefined =>
      rw [handleSaveWord_absent s (Or.inr hc)]; exact handleSaveWord_absent s (Or.inr hc)
  · intro e hc hn
    rw [handleSaveWord_new s e hc hn]

/-- Claim C7 on the page that shows "hello" with nothing saved yet. -/
theorem handleSaveWord_keeps_nodup_witness :
    showingHello.savedWords.Nodup ∧
    (handleSaveWord showingHello).savedWords = ["hello"] ∧
    handleSaveWord (handleSaveWord showingHello) = handleSaveWord showingHello :=
  ⟨by decide,
   ((handleSaveWord_keeps_nodup showingHello (by decide)).2.2.2.2.2 helloEntry
      (by decide) (by decide)).trans (by decide),
   (handleSaveWord_keeps_nodup showingHello (by decide)).2.1⟩

/-- The filter of line 123 keeps the phonetics whose trimmed audio URL is not
empty: a URL that is empty is empty once trimmed. -/
theorem hasAudio_eq (p : Phonetic) : hasAudio p = hasTrimmedAudio p := by
  unfold hasAudio hasTrimmedAudio
  cases h : p.audio with
  | none => rfl
  | some a =>
    simp only
    by_cases ht : jsTrim a = ""
    · simp [ht]
    · have : a ≠ "" := by
        intro h0; subst h0; exact ht (by decide)
      simp [ht, (truthy_iff a).mpr this]

/-- What goes into the markup of a button is the text, or "Play Audio" for a
missing or empty text. -/
theorem audioButton_eq (p : Phonetic) :
    audioButton p =
      { className := "audio-button",
        innerHTML := audioMarkupHead ++ specLabel p ++ audioMarkupTail,
        audio := p.audio } := by
  unfold audioButton specLabel
  cases h : p.text with
  | none => rfl
  | some t => simp [orElse_some]

/-- Text without `&`, `<` and `>` is its own escaped form. -/
theorem escapeChars_plain (cs : List Char) (h : ∀ c ∈ cs, isMarkupChar c = false) :
    escapeChars cs = cs := by
  induction cs with
  | nil => rfl
  | cons c cs ih =>
    have hc := h c (List.mem_cons_self c cs)
    simp only [isMarkupChar, Bool.or_eq_false_iff] at hc
    obtain ⟨⟨h1, h2⟩, h3⟩ := hc
    simp only [escapeChars, h1, h2, h3, Bool.false_eq_true, ↓reduceIte, List.singleton_append,
      List.cons.injEq, true_and]
    exact ih (fun c hc => h c (List.mem_cons_of_mem _ hc))

/-- Claim C9 fails as stated.  A phonetic whose audio URL is one space has a
present, non-empty URL, yet gets no button and the audio section is hidden.
And a text that holds markup goes into the markup of its button unescaped:
what is assigned is not the markup whose `span` holds that text. -/
theorem blank_audio_counterexample :
    [blankAudio].filter specHasAudio = [blankAudio] ∧
    (displayAudioPronunciation (some [blankAudio]) pageLoad).audioButtons = [] ∧
    isHidden .audioContainer (displayAudioPronunciation (some [blankAudio]) pageLoad) = true ∧
    (displayAudioPronunciation (some [markupText]) pageLoad).audioButtons =
      [{ className := "audio-button",
         innerHTML := audioMarkupHead ++ "a &amp; <i>b</i>" ++ audioMarkupTail,
         audio := some "//example.com/a.mp3" }] ∧
    audioMarkupHead ++ "a &amp; <i>b</i>" ++ audioMarkupTail
      ≠ labelledMarkup "a &amp; <i>b</i>" := by
  refine ⟨by decide, by decide, by decide, rfl, ?_⟩
  intro h
  have h1 := congrArg String.data h
  simp only [labelledMarkup, escapeHtml, String.data_append] at h1
  have h2 := List.append_cancel_left (List.append_cancel_right h1)
  exact absurd h2 (by decide)

/-- Claim C9, amended.  `displayAudioPronunciation` leaves one button per
phonetic whose audio URL is present and not empty after trimming, in the
original order.  The markup assigned to each is the icon followed by a `span`
into which the text, or "Play Audio" when the text is missing or empty, is
put as it is; that is the markup whose `span` holds the label as text when
the label has none of `&`, `<` and `>`.  The audio section is hidden exactly
when no phonetic has such a URL (an absent or empty list included) and shown
exactly when one has. -/
theorem displayAudioPronunciation_buttons (phonetics : Option (List Phonetic))
    (s : AppState) :
    (displayAudioPronunciation phonetics s).audioButtons =
      ((phonetics.getD []).filter hasTrimmedAudio).map
        (fun p => { className := "audio-button",
                    innerHTML := audioMarkupHead ++ specLabel p ++ audioMarkupTail,
                    audio := p.audio }) ∧
    (∀ p : Phonetic, (∀ c ∈ (specLabel p).data, isMarkupChar c = false) →
      audioMarkupHead ++ specLabel p ++ audioMarkupTail = labelledMarkup (specLabel p)) ∧
    (isHidden .audioContainer (displayAudioPronunciation phonetics s) = true ↔
      ∀ p ∈ phonetics.getD [], hasTrimmedAudio p = false) ∧
    (isHidden .audioContainer (displayAudioPronunciation phonetics s) = false ↔
      ∃ p ∈ phonetics.getD [], hasTrimmedAudio p = true) := by
  rw [displayAudioPronunciation_eq]
  have hf : hasAudio = hasTrimmedAudio := funext hasAudio_eq
  have hb : audioButton = fun p =>
      { className := "audio-button",
        innerHTML := audioMarkupHead ++ specLabel p ++ audioMarkupTail,
        audio := p.audio } :=
    funext audioButton_eq
  rw [hf, hb]
  refine ⟨rfl, ?_, ?_, ?_⟩
  · intro p hp
    unfold labelledMarkup escapeHtml
    rw [escapeChars_plain _ hp]
  · simp only [isHidden, List.isEmpty_eq_true, List.filter_eq_nil_iff, Bool.not_eq_true]
  · simp only [isHidden]
    rw [← Bool.not_eq_true, List.isEmpty_eq_true, List.filter_eq_nil_iff]
    simp

/-- Claim C9, amended, on the phonetics of "hello": one button, labelled with
the plain text of the first phonetic; the second has an empty URL. -/
theorem displayAudioPronunciation_buttons_witness :
    (displayAudioPronunciation helloEntry.phonetics pageLoad).audioButtons =
      [{ className := "audio-button",
         innerHTML := labelledMarkup "/həˈləʊ/",
         audio := some "//example.com/a.mp3" }] :=
  (displayAudioPronunciation_buttons helloEntry.phonetics pageLoad).1.trans rfl

/-! ### Save affordance -/


theorem synced_congr (s s' : AppState) (h1 : s'.currentWord = s.currentWord)
    (h2 : s'.savedWords = s.savedWords) (h3 : s'.saveWordButtonText = s.saveWordButtonText)
    (h4 : s'.saveWordButtonDisabled = s.saveWordButtonDisabled)
    (h5 : s'.wordDataSavedHighlight = s.wordDataSavedHighlight) (h : Synced s) :
    Synced s' := by
  intro e hc
  unfold SaveAffordance
  rw [h2, h3, h4, h5]
  exact h e (h1 ▸ hc)

theorem saveAffordance_displayEntry (e : Entry) (s : AppState)
    (hc : s.currentWord = .entry e) : SaveAffordance e (displayEntry e s) := by
  rw [displayEntry_eq]
  unfold SaveAffordance updateSaveButtonState
  simp only [hc]
  by_cases hm : e.word ∈ s.savedWords <;> simp [hm]

theorem saveAffordance_handleSaveWord (e : Entry) (s : AppState)
    (hc : s.currentWord = .entry e) (h : SaveAffordance e s) :
    SaveAffordance e (handleSaveWord s) := by
  by_cases hm : e.word ∈ s.savedWords
  · rw [handleSaveWord_old s e hc hm]; exact h
  · rw [handleSaveWord_new s e hc hm]
    simp [SaveAffordance]

theorem handleSaveWord_currentWord (s : AppState) :
    (handleSaveWord s).currentWord = s.currentWord := by
  cases hc : s.currentWord with
  | entry e =>
    by_cases hm : e.word ∈ s.savedWords
    · rw [handleSaveWord_old s e hc hm, hc]
    · rw [handleSaveWord_new s e hc hm]; exact hc
  | null => rw [handleSaveWord_absent s (Or.inl hc), hc]
  | undefined => rw [handleSaveWord_absent s (Or.inr hc), hc]

theorem synced_handleSearchResume (t : String) (o : FetchOutcome) (s : AppState)
    (h : Synced s) : Synced (handleSearchResume t o s) := by
  cases hr : firstRead o with
  | none =>
    obtain ⟨m, hm⟩ := handleSearchResume_nothing_read t o s hr
    rw [hm, handleSearch_caught_eq]
    exact synced_congr s _ rfl rfl rfl rfl rfl h
  | some v =>
    by_cases hv : ∃ e, v = .entry e
    · obtain ⟨e0, hv⟩ := hv
      subst hv
      rw [handleSearchResume_entry t o s e0 hr]
      have h0 := saveAffordance_displayEntry e0 { s with currentWord := .entry e0 } rfl
      have hcw := (displayEntry_frame e0 { s with currentWord := .entry e0 }).1
      intro e hc
      have hc' : (displayEntry e0 { s with currentWord := .entry e0 }).currentWord
          = .entry e := hc
      rw [hcw] at hc'
      cases hc'
      exact h0
    · have hv' : ∀ e, v ≠ .entry e := fun e he => hv ⟨e, he⟩
      rw [handleSearchResume_unrenderable t o s v hr hv', handleSearch_caught_eq]
      intro e hc
      exact absurd hc (hv' e)

theorem step_input (σ : Sys) (v : String) :
    step σ (.input v) = { σ with app := { σ.app with searchInputValue := v } } := rfl

theorem step_submit_blank (σ : Sys) (h : jsTrim σ.app.searchInputValue = "") :
    step σ .submit = σ := by
  simp [step, h, truthy]

theorem step_submit (σ : Sys) (h : jsTrim σ.app.searchInputValue ≠ "") :
    step σ .submit = { app := handleSearchBegin σ.app, inFlight := σ.inFlight + 1 } := by
  simp [step, (truthy_iff _).mpr h]

theorem step_lookupSettles_idle (σ : Sys) (o : FetchOutcome) (t : String)
    (h : σ.inFlight = 0) : step σ (.lookupSettles o t) = σ := by
  simp [step, h]

theorem step_lookupSettles (σ : Sys) (o : FetchOutcome) (t : String) (n : Nat)
    (h : σ.inFlight = n + 1) :
    step σ (.lookupSettles o t) = { app := handleSearchResume t o σ.app, inFlight := n } := by
  simp [step, h]

theorem step_save (σ : Sys) : step σ .save = { σ with app := handleSaveWord σ.app } := rfl

theorem step_toggle (σ : Sys) : step σ .toggle = { σ with app := toggleTheme σ.app } := rfl

theorem step_audioFails (σ : Sys) :
    step σ .audioFails = { σ with app := playAudioCatch σ.app } := rfl

theorem toggleTheme_eq (s : AppState) :
    toggleTheme s =
      { s with isDarkMode := !s.isDarkMode, bodyDarkMode := !s.isDarkMode,
               sunIconHidden := !s.isDarkMode, moonIconHidden := s.isDarkMode } := by
  unfold toggleTheme
  cases h : s.isDarkMode <;> simp [h]

/-- Every event keeps the save affordance in agreement with `savedWords`. -/
theorem synced_step (σ : Sys) (ev : Event) (h : Synced σ.app) : Synced (step σ ev).app := by
  cases ev with
  | input v => rw [step_input]; exact synced_congr σ.app _ rfl rfl rfl rfl rfl h
  | submit =>
    by_cases hb : jsTrim σ.app.searchInputValue = ""
    · rw [step_submit_blank σ hb]; exact h
    · rw [step_submit σ hb, handleSearchBegin_eq]
      exact synced_congr σ.app _ rfl rfl rfl rfl rfl h
  | lookupSettles o t =>
    cases hn : σ.inFlight with
    | zero => rw [step_lookupSettles_idle σ o t hn]; exact h
    | succ n =>
      rw [step_lookupSettles σ o t n hn]
      exact synced_handleSearchResume t o σ.app h
  | save =>
    rw [step_save]
    intro e hc
    have hc0 : σ.app.currentWord = .entry e := by
      rw [← handleSaveWord_currentWord]; exact hc
    exact saveAffordance_handleSaveWord e σ.app hc0 (h e hc0)
  | toggle =>
    rw [step_toggle, toggleTheme_eq]
    exact synced_congr σ.app _ rfl rfl rfl rfl rfl h
  | audioFails =>
    rw [step_audioFails, playAudioCatch, showError_eq]
    exact synced_congr σ.app _ rfl rfl rfl rfl rfl h

theorem synced_run (evs : List Event) (σ : Sys) (h : Synced σ.app) :
    Synced (run σ evs).app := by
  induction evs generalizing σ with
  | nil => exact h
  | cons ev rest ih => exact ih (step σ ev) (synced_step σ ev h)

theorem synced_start (s0 : AppState) (h : Fresh s0) : Synced (start s0).app := by
  intro e hc
  have : (start s0).app.currentWord = s0.currentWord := by
    simp only [start, init, updateSavedWordsDisplay_eq]
  rw [this, h.2.1] at hc
  cases hc

/-- Claim C8.  Rendering an entry that is the current word leaves the save
affordance in agreement with `savedWords`; and in every state the page can
reach from a fresh load in which that entry is current, the affordance agrees
with `savedWords` after `handleSaveWord`. -/
theorem save_affordance_tracks_savedWords (s0 : AppState) (evs : List Event) (e : Entry)
    (hfresh : Fresh s0) (hcur : (run (start s0) evs).app.currentWord = .entry e) :
    (∀ (t : String) (s : AppState), s.currentWord = .entry e →
      ∃ s', displayWordData t (.entry e) s = .ok s' ∧ SaveAffordance e s') ∧
    SaveAffordance e (handleSaveWord (run (start s0) evs).app) :=
  ⟨fun _ s hc => ⟨displayEntry e s, rfl, saveAffordance_displayEntry e s hc⟩,
   saveAffordance_handleSaveWord e _ hcur
     (synced_run evs (start s0) (synced_start s0 hfresh) e hcur)⟩

/-- Claim C8 after "hello" has been looked up and saved once. -/
theorem save_affordance_tracks_savedWords_witness :
    SaveAffordance helloEntry
      (handleSaveWord
        (run (start pageLoad)
          [.input "hello", .submit, .lookupSettles (.okBody [some helloEntry]) "", .save]).app) :=
  (save_affordance_tracks_savedWords pageLoad
    [.input "hello", .submit, .lookupSettles (.okBody [some helloEntry]) "", .save]
    helloEntry (by decide) (by decide)).2


/-! ### Regions -/

theorem visibleRegions_congr (s s' : AppState)
    (h1 : s'.welcomeMessageHidden = s.welcomeMessageHidden)
    (h2 : s'.errorMessageHidden = s.errorMessageHidden)
    (h3 : s'.wordDataContainerHidden = s.wordDataContainerHidden) :
    visibleRegions s' = visibleRegions s := by
  simp only [visibleRegions, isHidden, h1, h2, h3]

theorem visibleRegions_zero (s : AppState) (h : visibleRegions s = 0) :
    s.welcomeMessageHidden = true ∧ s.errorMessageHidden = true ∧
      s.wordDataContainerHidden = true := by
  simp only [visibleRegions, isHidden] at h
  cases h1 : s.welcomeMessageHidden <;> cases h2 : s.errorMessageHidden <;>
    cases h3 : s.wordDataContainerHidden <;> simp [h1, h2, h3] at h ⊢

theorem visibleRegions_handleSearchBegin (s : AppState) :
    visibleRegions (handleSearchBegin s) = 0 := by
  rw [handleSearchBegin_eq]; rfl

theorem visibleRegions_showError (m : String) (s : AppState) :
    visibleRegions (showError m s) = 1 := by
  rw [showError_eq]; rfl

theorem visibleRegions_caught (m : String) (s : AppState) :
    visibleRegions (handleSearchFinally (handleSearchCatch m s)) = 1 := by
  rw [handleSearch_caught_eq]; rfl

theorem visibleRegions_handleSaveWord (s : AppState) :
    visibleRegions (handleSaveWord s) = visibleRegions s := by
  cases hc : s.currentWord with
  | entry e =>
    by_cases hm : e.word ∈ s.savedWords
    · rw [handleSaveWord_old s e hc hm]
    · rw [handleSaveWord_new s e hc hm]; rfl
  | null => rw [handleSaveWord_absent s (Or.inl hc)]
  | undefined => rw [handleSaveWord_absent s (Or.inr hc)]

theorem visibleRegions_toggleTheme (s : AppState) :
    visibleRegions (toggleTheme s) = visibleRegions s := by
  rw [toggleTheme_eq]; rfl

/-- A lookup that settles while no region is shown leaves exactly one shown. -/
theorem visibleRegions_handleSearchResume (t : String) (o : FetchOutcome) (s : AppState)
    (h : visibleRegions s = 0) : visibleRegions (handleSearchResume t o s) = 1 := by
  obtain ⟨hw, he, _⟩ := visibleRegions_zero s h
  cases hr : firstRead o with
  | none =>
    obtain ⟨m, hm⟩ := handleSearchResume_nothing_read t o s hr
    rw [hm]
    exact visibleRegions_caught _ _
  | some v =>
    by_cases hv : ∃ e, v = .entry e
    · obtain ⟨e0, hv⟩ := hv
      subst hv
      rw [handleSearchResume_entry t o s e0 hr]
      obtain ⟨_, _, fw, fe⟩ := displayEntry_frame e0 { s with currentWord := .entry e0 }
      have fw' : (displayEntry e0 { s with currentWord := .entry e0 }).welcomeMessageHidden
          = true := fw.trans hw
      have fe' : (displayEntry e0 { s with currentWord := .entry e0 }).errorMessageHidden
          = true := fe.trans he
      simp only [visibleRegions, isHidden, fw', fe']
      rfl
    · have hv' : ∀ e, v ≠ .entry e := fun e he => hv ⟨e, he⟩
      rw [handleSearchResume_unrenderable t o s v hr hv']
      exact visibleRegions_caught _ _

/-- Every event of a sequential run keeps the region invariant. -/
theorem regionInv_step (σ : Sys) (ev : Event) (h : RegionInv σ)
    (hseq : (σ.inFlight == 0 || !(ev == .submit || ev == .audioFails)) = true) :
    RegionInv (step σ ev) := by
  rcases h with ⟨hi, hv⟩ | ⟨hi, hv⟩
  · cases ev with
    | input v => rw [step_input]; exact Or.inl ⟨hi, hv⟩
    | submit =>
      by_cases hb : jsTrim σ.app.searchInputValue = ""
      · rw [step_submit_blank σ hb]; exact Or.inl ⟨hi, hv⟩
      · rw [step_submit σ hb]
        exact Or.inr ⟨by simp [hi], visibleRegions_handleSearchBegin _⟩
    | lookupSettles o t => rw [step_lookupSettles_idle σ o t hi]; exact Or.inl ⟨hi, hv⟩
    | save => rw [step_save]; exact Or.inl ⟨hi, (visibleRegions_handleSaveWord _).trans hv⟩
    | toggle => rw [step_toggle]; exact Or.inl ⟨hi, (visibleRegions_toggleTheme _).trans hv⟩
    | audioFails => rw [step_audioFails]; exact Or.inl ⟨hi, visibleRegions_showError _ _⟩
  · cases ev with
    | input v => rw [step_input]; exact Or.inr ⟨hi, hv⟩
    | submit => simp [hi] at hseq
    | lookupSettles o t =>
      rw [step_lookupSettles σ o t 0 hi]
      exact Or.inl ⟨rfl, visibleRegions_handleSearchResume t o _ hv⟩
    | save => rw [step_save]; exact Or.inr ⟨hi, (visibleRegions_handleSaveWord _).trans hv⟩
    | toggle => rw [step_toggle]; exact Or.inr ⟨hi, (visibleRegions_toggleTheme _).trans hv⟩
    | audioFails => simp [hi] at hseq

theorem regionInv_run (evs : List Event) (σ : Sys) (h : RegionInv σ)
    (hseq : sequential σ evs = true) : RegionInv (run σ evs) := by
  induction evs generalizing σ with
  | nil => exact h
  | cons ev rest ih =>
    simp only [sequential, Bool.and_eq_true] at hseq
    exact ih (step σ ev) (regionInv_step σ ev h hseq.1) hseq.2

theorem regionInv_start (s0 : AppState) (h : WelcomeView s0) : RegionInv (start s0) := by
  obtain ⟨hw, he, hd, _⟩ := h
  simp only [isHidden] at hw he hd
  refine Or.inl ⟨rfl, ?_⟩
  simp only [start, init, updateSavedWordsDisplay_eq, visibleRegions, isHidden, hw, he, hd]
  rfl

/-- Claim C10 fails as stated: while the first lookup is in flight none of
the three regions is shown. -/
theorem loading_shows_no_region_counterexample :
    WelcomeView pageLoad ∧ Fresh pageLoad ∧
    visibleRegions (run (start pageLoad) [.input "hello", .submit]).app = 0 := by
  decide

/-- Claim C10, amended.  From a page that shows only the welcome region, along
any sequence of events in which no search is submitted and no audio failure
arrives while a lookup is in flight, exactly one of the three regions is shown
whenever no lookup is in flight, and none of them while one is. -/
theorem regions_when_sequential (s0 : AppState) (evs : List Event)
    (hview : WelcomeView s0) (hseq : sequential (start s0) evs = true) :
    ((run (start s0) evs).inFlight = 0 → visibleRegions (run (start s0) evs).app = 1) ∧
    ((run (start s0) evs).inFlight ≠ 0 → visibleRegions (run (start s0) evs).app = 0) := by
  rcases regionInv_run evs (start s0) (regionInv_start s0 hview) hseq with ⟨hi, hv⟩ | ⟨hi, hv⟩
  · exact ⟨fun _ => hv, fun hne => absurd hi hne⟩
  · exact ⟨fun h0 => by omega, fun _ => hv⟩

/-- Claim C10, amended, along two lookups, a save, a theme toggle and an audio
failure. -/
theorem regions_when_sequential_witness :
    visibleRegions
      (run (start pageLoad)
        [.input "hello", .submit, .toggle, .lookupSettles (.okBody [some helloEntry]) "",
         .save, .audioFails, .input "zzzxxx123", .submit, .lookupSettles .notOk ""]).app = 1 :=
  (regions_when_sequential pageLoad
    [.input "hello", .submit, .toggle, .lookupSettles (.okBody [some helloEntry]) "",
     .save, .audioFails, .input "zzzxxx123", .submit, .lookupSettles .notOk ""]
    (by decide) (by decide)).1 (by decide)

/-- Two lookups that overlap can leave the error banner and the word-data
region both shown. -/
theorem overlapping_lookups_show_two_regions :
    visibleRegions
      (run (start pageLoad)
        [.input "hello", .submit, .submit, .lookupSettles .notOk "",
         .lookupSettles (.okBody [some helloEntry]) ""]).app = 2 := by
  decide


end Wordly
